import Mathlib

/-
Verification of the feature-derivation routine `preparar_features_para_predicao`
(prepare_features.py) of the capstone price-prediction service.

The embedding mirrors the pandas code:
  * cell values of the reference tables are tagged scalars (`PVal`), so that a
    comparison between an integer sku and a string category code is False, as
    it is under pandas equality;
  * pandas Timestamps are calendar dates (`PDate`); `dayOfWeek` follows the
    Monday=0 .. Sunday=6 convention via the standard civil-calendar day count;
  * the row dictionary `new_data` is an insertion-ordered association list;
    `setKey` updates an existing key in place or appends a fresh one, exactly
    like assignment into a Python dict / single-row DataFrame;
  * Python `str.replace(pat, '')` removes every occurrence of `pat`
    left-to-right (`removeAllL`), and `str.startswith` is `strStarts`;
  * float statistics are idealised as exact rationals; `pandas.Series.std`
    (the square root of the sample variance) is kept symbolic as the
    `FVal.sqval` constructor, and the empty-mean NaN is `FVal.nan`.
-/

inductive PVal where
  | i : Int → PVal
  | s : String → PVal
deriving DecidableEq

def pvalStr : PVal → String
  | PVal.i n => toString n
  | PVal.s v => v

structure PDate where
  year : Int
  month : Int
  day : Int
deriving DecidableEq

/-- Days since 1970-01-01 of a civil date (standard days-from-civil algorithm). -/
def daysFromCivil (d : PDate) : Int :=
  let y : Int := if d.month ≤ 2 then d.year - 1 else d.year
  let era : Int := (if 0 ≤ y then y else y - 399) / 400
  let yoe : Int := y - era * 400
  let mp : Int := (d.month + 9) % 12
  let doy : Int := (153 * mp + 2) / 5 + d.day - 1
  let doe : Int := yoe * 365 + yoe / 4 - yoe / 100 + doy
  era * 146097 + doe - 719468

/-- pandas `Timestamp.dayofweek`: Monday = 0 .. Sunday = 6. -/
def dayOfWeek (d : PDate) : Int := (daysFromCivil d + 3) % 7

/-- Chronological order on dates, as pandas compares Timestamps. -/
def dateLEb (a b : PDate) : Bool := decide (daysFromCivil a ≤ daysFromCivil b)

inductive FVal where
  | int : Int → FVal
  | rat : Rat → FVal
  | sqval : Rat → FVal
  | nan : FVal
  | pv : PVal → FVal
  | dt : PDate → FVal
  | str : String → FVal
deriving DecidableEq

structure SalesRow where
  sku : PVal
  structure_level_1 : PVal
  structure_level_2 : PVal
  structure_level_3 : PVal
  structure_level_4 : PVal
deriving DecidableEq

structure PriceRow where
  sku : PVal
  target_price : Rat
deriving DecidableEq

structure CampaignRow where
  competitor : String
  start_date : PDate
  end_date : PDate
  chain_campaign : String
deriving DecidableEq

/-- Remove every occurrence of `pat` from a character list, scanning left to
right: Python `s.replace(pat, '')`. The fuel argument only drives structural
recursion; one unit per consumed character suffices. -/
def removeAllAux (pat : List Char) : Nat → List Char → List Char
  | _, [] => []
  | 0, l => l
  | fuel + 1, c :: rest =>
    if pat ≠ [] ∧ pat.isPrefixOf (c :: rest) then
      removeAllAux pat fuel ((c :: rest).drop pat.length)
    else
      c :: removeAllAux pat fuel rest

def removeAllStr (s pat : String) : String :=
  ⟨removeAllAux pat.data s.data.length s.data⟩

/-- Python `s.startswith(pat)`. -/
def strStarts (s pat : String) : Bool := pat.data.isPrefixOf s.data

def strDrop (s : String) (n : Nat) : String := ⟨s.data.drop n⟩

/-- First-occurrence deduplication: pandas `Series.unique` / the element set of
a Python `set`, modelled with first-occurrence iteration order. -/
def dedupFirstAux {α : Type} [DecidableEq α] (seen : List α) : List α → List α
  | [] => []
  | x :: xs =>
    if x ∈ seen then dedupFirstAux seen xs
    else x :: dedupFirstAux (x :: seen) xs

def dedupFirst {α : Type} [DecidableEq α] (l : List α) : List α :=
  dedupFirstAux [] l

/-- Assignment into the insertion-ordered row dictionary: update the existing
key in place, or append a fresh key at the end. -/
def setKey : List (String × FVal) → String → FVal → List (String × FVal)
  | [], k, v => [(k, v)]
  | p :: rest, k, v => if p.1 == k then (k, v) :: rest else p :: setKey rest k v

def getKey : List (String × FVal) → String → Option FVal
  | [], _ => none
  | p :: rest, k => if p.1 == k then some p.2 else getKey rest k

/-- One dict-filling pass over the feature-name list (`for feature in features:
if feature.startswith(...): new_data[feature] = ...`). -/
def applyLoop (g : String → Option FVal) (nd : List (String × FVal)) :
    List String → List (String × FVal)
  | [] => nd
  | f :: fs =>
    applyLoop g (match g f with | some v => setKey nd f v | none => nd) fs

def listMean (l : List Rat) : Rat := l.sum / (l.length : Rat)

def listMin : List Rat → Rat
  | [] => 0
  | x :: xs => xs.foldl min x

def listMax : List Rat → Rat
  | [] => 0
  | x :: xs => xs.foldl max x

def sampleVar (l : List Rat) : Rat :=
  ((l.map (fun x => (x - listMean l) ^ 2)).sum) / ((l.length : Rat) - 1)

/-- `prices_stats.std() if len(prices_stats) > 1 else 0`; `sqval q` stands for
the nonnegative square root of `q`. -/
def std_price_val (l : List Rat) : FVal :=
  if 1 < l.length then FVal.sqval (sampleVar l) else FVal.int 0

/-- `campaign['start_date'] <= date <= campaign['end_date']`. -/
def inRangeb (c : CampaignRow) (date : PDate) : Bool :=
  dateLEb c.start_date date && dateLEb date c.end_date

/-- Lines 40-44: scan the competitor's campaign rows in table order, first one
whose inclusive range holds the date wins, else the sentinel label. -/
def activeCampaign (campaigns : List CampaignRow) (competitor : String)
    (date : PDate) : String :=
  match (campaigns.filter (fun c => c.competitor == competitor)).find?
      (fun c => inRangeb c date) with
  | some c => c.chain_campaign
  | none => "no_campaign"

/-- Lines 48-51: `1 if active_campaign == campaign_name or feature == '' else 0`. -/
def campaignVal (active : String) (f : String) : Option FVal :=
  if strStarts f "campaign_" then
    some (FVal.int (if (active == removeAllStr f "campaign_") || (f == "") then 1 else 0))
  else none

/-- Lines 55-58: `1 if leaflet_name == 'none' else 0`. -/
def leafletVal (f : String) : Option FVal :=
  if strStarts f "leaflet_" then
    some (FVal.int (if removeAllStr f "leaflet_" == "none" then 1 else 0))
  else none

/-- Lines 63-68: per-sku price statistics, set only when at least one price row
matches; insertion order mean, std, min, max. -/
def priceStatsData (nd : List (String × FVal)) (l : List Rat) :
    List (String × FVal) :=
  if 0 < l.length then
    setKey (setKey (setKey (setKey nd
      "mean_price" (FVal.rat (listMean l)))
      "std_price" (std_price_val l))
      "min_price" (FVal.rat (listMin l)))
      "max_price" (FVal.rat (listMax l))
  else nd

def levelProjs : List (String × (SalesRow → PVal)) :=
  [("structure_level_1", SalesRow.structure_level_1),
   ("structure_level_2", SalesRow.structure_level_2),
   ("structure_level_3", SalesRow.structure_level_3),
   ("structure_level_4", SalesRow.structure_level_4)]

/-- `filtered_prices['target_price'].mean()`: NaN on an empty frame, else the
mean. -/
def meanFVal (tps : List Rat) : FVal :=
  if tps = [] then FVal.nan else FVal.rat (listMean tps)

/-- Lines 72-83 body: distinct level values of the sku's sales rows, then
`prices_df_clean[prices_df_clean['sku'].isin(list_structure_values)]`, then the
mean target price (NaN on an empty frame). -/
def structAvgVal (sales : List SalesRow) (prices : List PriceRow) (sku : PVal)
    (proj : SalesRow → PVal) : FVal :=
  let vals := dedupFirst ((sales.filter (fun r => decide (r.sku = sku))).map proj)
  meanFVal ((prices.filter (fun p => decide (p.sku ∈ vals))).map PriceRow.target_price)

def structData (nd : List (String × FVal)) (sku : PVal)
    (sales : List SalesRow) (prices : List PriceRow) : List (String × FVal) :=
  levelProjs.foldl
    (fun acc lp => setKey acc (lp.1 ++ "_avg_price") (structAvgVal sales prices sku lp.2))
    nd

/-- Lines 23-36: the initial `new_data` dictionary, in insertion order. -/
def baseData (sku : PVal) (date : PDate) (competitor : String) (info : SalesRow) :
    List (String × FVal) :=
  [("sku", FVal.pv sku),
   ("date", FVal.dt date),
   ("competitor", FVal.str competitor),
   ("structure_level_1", FVal.pv info.structure_level_1),
   ("structure_level_2", FVal.pv info.structure_level_2),
   ("structure_level_3", FVal.pv info.structure_level_3),
   ("structure_level_4", FVal.pv info.structure_level_4),
   ("year", FVal.int date.year),
   ("month", FVal.int date.month),
   ("day_of_week", FVal.int (dayOfWeek date)),
   ("is_weekend", FVal.int (if dayOfWeek date = 5 ∨ dayOfWeek date = 6 then 1 else 0)),
   ("is_promo_period", FVal.int 0)]

/-- The fully populated `new_data` dictionary (lines 23-83), given the first
matching sales row `info`. -/
def newData (sku : PVal) (date : PDate) (competitor : String) (info : SalesRow)
    (sales : List SalesRow) (prices : List PriceRow) (campaigns : List CampaignRow)
    (features : List String) : List (String × FVal) :=
  let nd0 := baseData sku date competitor info
  let nd1 := applyLoop (campaignVal (activeCampaign campaigns competitor date)) nd0 features
  let nd2 := applyLoop leafletVal nd1 features
  let nd3 := priceStatsData nd2
    ((prices.filter (fun p => decide (p.sku = sku))).map PriceRow.target_price)
  structData nd3 sku sales prices

/-- Lines 101-108 default for a feature name absent from `df_final`. -/
def defaultFor (f : String) : FVal :=
  if strStarts f "campaign_" then FVal.int 0
  else if strStarts f "leaflet_" then
    (if f == "leaflet_none" then FVal.int 1 else FVal.int 0)
  else FVal.int 0

def availPairs (nd : List (String × FVal)) (av : List String) :
    List (String × FVal) :=
  av.filterMap (fun f => (getKey nd f).map (fun v => (f, v)))

/-- Lines 92-108: select the available features in `features` order, then append
each missing feature with its default value. -/
def reconcile (nd : List (String × FVal)) (features : List String) :
    List (String × FVal) :=
  let avail := features.filter (fun f => (getKey nd f).isSome)
  let missing := dedupFirst (features.filter (fun f => (getKey nd f).isNone))
  availPairs nd avail ++ missing.map (fun f => (f, defaultFor f))

def skuNotFoundMsg (sku : PVal) : String :=
  "SKU '" ++ pvalStr sku ++ "' não encontrado nos dados de vendas."

/-- The feature-row part of `preparar_features_para_predicao` (lines 3-108):
everything up to and including the construction of `X_pred`. -/
def preparar_X_pred (sku : PVal) (date : PDate) (competitor : String)
    (sales : List SalesRow) (prices : List PriceRow) (campaigns : List CampaignRow)
    (features : List String) : Except String (List (String × FVal)) :=
  match sales.filter (fun r => decide (r.sku = sku)) with
  | [] => Except.error (skuNotFoundMsg sku)
  | info :: _ =>
    Except.ok (reconcile (newData sku date competitor info sales prices campaigns features) features)

/-- Lines 3-115: build `X_pred` and return `model.predict(X_pred)[0]`. -/
def preparar_features_para_predicao (sku : PVal) (date : PDate) (competitor : String)
    (sales : List SalesRow) (prices : List PriceRow) (campaigns : List CampaignRow)
    (features : List String) (model : List (String × FVal) → List Rat) :
    Except String Rat :=
  match preparar_X_pred sku date competitor sales prices campaigns features with
  | Except.error e => Except.error e
  | Except.ok xp =>
    match model xp with
    | [] => Except.error "index 0 is out of bounds"
    | y :: _ => Except.ok y

def valOfX (r : Except String (List (String × FVal))) (k : String) : Option FVal :=
  match r with
  | Except.ok xp => getKey xp k
  | Except.error _ => none

def keysOfX (r : Except String (List (String × FVal))) : List String :=
  match r with
  | Except.ok xp => xp.map Prod.fst
  | Except.error _ => []

deriving instance DecidableEq for Except

/-! ### Dictionary lemmas -/

lemma getKey_setKey_self (nd : List (String × FVal)) (k : String) (v : FVal) :
    getKey (setKey nd k v) k = some v := by
  induction nd with
  | nil => simp [setKey, getKey]
  | cons p rest ih =>
    by_cases h : p.1 = k
    · simp [setKey, getKey, beq_iff_eq, h]
    · simp [setKey, getKey, beq_iff_eq, h, ih]

lemma getKey_setKey_ne (nd : List (String × FVal)) (k k2 : String) (v : FVal)
    (h : k2 ≠ k) : getKey (setKey nd k v) k2 = getKey nd k2 := by
  induction nd with
  | nil => simp [setKey, getKey, beq_iff_eq, Ne.symm h]
  | cons p rest ih =>
    by_cases hp : p.1 = k
    · simp [setKey, getKey, beq_iff_eq, hp, Ne.symm h]
    · simp [setKey, getKey, beq_iff_eq, hp, ih]

lemma getKey_applyLoop (g : String → Option FVal) (fs : List String) :
    ∀ (nd : List (String × FVal)) (k : String),
      getKey (applyLoop g nd fs) k =
        if k ∈ fs ∧ (g k).isSome then g k else getKey nd k := by
  induction fs with
  | nil => intro nd k; simp [applyLoop]
  | cons f fs ih =>
    intro nd k
    rw [show applyLoop g nd (f :: fs)
        = applyLoop g (match g f with | some v => setKey nd f v | none => nd) fs from rfl]
    rw [ih]
    by_cases hk : k ∈ fs ∧ (g k).isSome
    · simp [hk, hk.1, hk.2, List.mem_cons]
    · rw [if_neg hk]
      by_cases hkf : k = f
      · subst hkf
        cases hg : g k with
        | none => simp [hg]
        | some v => simp [hg, getKey_setKey_self]
      · cases hg : g f with
        | none => simp [hg, List.mem_cons, hkf, hk]
        | some v =>
          simp only [hg]
          rw [getKey_setKey_ne _ _ _ _ hkf]
          simp [List.mem_cons, hkf, hk]

lemma getKey_append_left {l1 l2 : List (String × FVal)} {k : String} {v : FVal}
    (h : getKey l1 k = some v) : getKey (l1 ++ l2) k = some v := by
  induction l1 with
  | nil => simp [getKey] at h
  | cons p rest ih =>
    cases hp : (p.1 == k) with
    | true => simpa [getKey, hp] using h
    | false =>
      rw [getKey, hp] at h
      simpa [getKey, hp] using ih h

lemma getKey_availPairs (nd : List (String × FVal)) (av : List String)
    (f : String) (v : FVal) (hv : getKey nd f = some v) (hmem : f ∈ av) :
    getKey (availPairs nd av) f = some v := by
  induction av with
  | nil => simp at hmem
  | cons a as ih =>
    unfold availPairs at *
    rw [List.filterMap_cons]
    by_cases haf : a = f
    · subst haf
      simp [hv, getKey, beq_iff_eq]
    · have hmem2 : f ∈ as := by
        rcases List.mem_cons.mp hmem with h | h
        · exact absurd h.symm haf
        · exact h
      cases hga : getKey nd a with
      | none => simpa [hga] using ih hmem2
      | some w => simpa [hga, getKey, beq_iff_eq, haf] using ih hmem2

lemma mapFst_availPairs (nd : List (String × FVal)) (av : List String)
    (h : ∀ x ∈ av, (getKey nd x).isSome) :
    (availPairs nd av).map Prod.fst = av := by
  induction av with
  | nil => simp [availPairs]
  | cons a as ih =>
    unfold availPairs at *
    rw [List.filterMap_cons]
    obtain ⟨w, hw⟩ := Option.isSome_iff_exists.mp (h a (List.mem_cons_self a as))
    simp only [hw, Option.map_some']
    rw [List.map_cons]
    rw [ih (fun x hx => h x (List.mem_cons_of_mem a hx))]

lemma mem_dedupFirstAux {α : Type} [DecidableEq α] (a : α) :
    ∀ (l seen : List α), a ∈ dedupFirstAux seen l ↔ a ∈ l ∧ a ∉ seen := by
  intro l
  induction l with
  | nil => intro seen; simp [dedupFirstAux]
  | cons x xs ih =>
    intro seen
    by_cases hx : x ∈ seen
    · rw [show dedupFirstAux seen (x :: xs) = dedupFirstAux seen xs by simp [dedupFirstAux, hx]]
      rw [ih]
      constructor
      · exact fun h => ⟨List.mem_cons_of_mem x h.1, h.2⟩
      · rintro ⟨h1, h2⟩
        rcases List.mem_cons.mp h1 with h | h
        · exact absurd (h ▸ hx) h2
        · exact ⟨h, h2⟩
    · rw [show dedupFirstAux seen (x :: xs) = x :: dedupFirstAux (x :: seen) xs by
        simp [dedupFirstAux, hx]]
      rw [List.mem_cons, ih]
      constructor
      · rintro (rfl | ⟨h1, h2⟩)
        · exact ⟨List.mem_cons_self _ _, hx⟩
        · exact ⟨List.mem_cons_of_mem x h1, fun hc => h2 (List.mem_cons_of_mem x hc)⟩
      · rintro ⟨h1, h2⟩
        by_cases hax : a = x
        · exact Or.inl hax
        · have h3 : a ∈ xs := by
            rcases List.mem_cons.mp h1 with h | h
            · exact absurd h hax
            · exact h
          refine Or.inr ⟨h3, fun hc => ?_⟩
          rcases List.mem_cons.mp hc with h | h
          · exact hax h
          · exact h2 h

lemma mem_dedupFirst {α : Type} [DecidableEq α] (a : α) (l : List α) :
    a ∈ dedupFirst l ↔ a ∈ l := by
  simp [dedupFirst, mem_dedupFirstAux]

lemma getKey_reconcile_of_mem (nd : List (String × FVal)) (features : List String)
    (f : String) (v : FVal) (hmem : f ∈ features) (hv : getKey nd f = some v) :
    getKey (reconcile nd features) f = some v := by
  unfold reconcile
  apply getKey_append_left
  exact getKey_availPairs _ _ _ _ hv (List.mem_filter.mpr ⟨hmem, by simp [hv]⟩)

/-! ### String lemmas -/

lemma isPrefixOf_append_self (l t : List Char) : l.isPrefixOf (l ++ t) = true := by
  induction l with
  | nil => simp [List.isPrefixOf]
  | cons c cs ih => simp [List.isPrefixOf, ih]

lemma exists_of_isPrefixOf :
    ∀ (l s : List Char), l.isPrefixOf s = true → s = l ++ s.drop l.length := by
  intro l
  induction l with
  | nil => intro s _; simp
  | cons a as ih =>
    intro s h
    cases s with
    | nil => simp [List.isPrefixOf] at h
    | cons b bs =>
      rw [List.isPrefixOf, Bool.and_eq_true, beq_iff_eq] at h
      obtain ⟨rfl, h2⟩ := h
      have := ih bs h2
      simp only [List.length_cons, List.drop_succ_cons, List.cons_append,
        List.cons.injEq, true_and]
      exact this

def noOccurB (pat : List Char) : List Char → Bool
  | [] => true
  | c :: rest => !(pat.isPrefixOf (c :: rest)) && noOccurB pat rest

lemma removeAllAux_of_noOccur (pat : List Char) :
    ∀ (l : List Char) (fuel : Nat), noOccurB pat l = true →
      removeAllAux pat fuel l = l := by
  intro l
  induction l with
  | nil => intro fuel _; cases fuel <;> rfl
  | cons c rest ih =>
    intro fuel h
    rw [noOccurB, Bool.and_eq_true, Bool.not_eq_true'] at h
    cases fuel with
    | zero => rfl
    | succ n =>
      rw [removeAllAux, if_neg (fun hc => by rw [hc.2] at h; exact absurd h.1 (by simp))]
      rw [ih n h.2]

lemma removeAllAux_append (pat t : List Char) (hp : pat ≠ [])
    (h : noOccurB pat t = true) :
    removeAllAux pat (pat ++ t).length (pat ++ t) = t := by
  cases pat with
  | nil => exact absurd rfl hp
  | cons c ps =>
    rw [show ((c :: ps) ++ t) = c :: (ps ++ t) from rfl]
    rw [show (c :: (ps ++ t)).length = (ps ++ t).length + 1 from rfl]
    rw [removeAllAux, if_pos ⟨hp, isPrefixOf_append_self _ _⟩]
    rw [show (c :: (ps ++ t)).drop (c :: ps).length = (ps ++ t).drop ps.length from rfl]
    rw [List.drop_left]
    exact removeAllAux_of_noOccur _ _ _ h

def strNoOccur (s pat : String) : Bool := noOccurB pat.data s.data

lemma data_ne_nil_of_ne_empty {s : String} (h : s ≠ "") : s.data ≠ [] := by
  intro hd
  apply h
  cases s with
  | mk d =>
    simp only at hd
    rw [hd]

lemma removeAllStr_eq_of_starts (f pat : String) (hp : pat ≠ "")
    (hs : strStarts f pat = true)
    (hn : strNoOccur (strDrop f pat.data.length) pat = true) :
    removeAllStr f pat = strDrop f pat.data.length := by
  unfold removeAllStr strDrop
  have hdata : f.data = pat.data ++ f.data.drop pat.data.length :=
    exists_of_isPrefixOf _ _ hs
  have hgoal : removeAllAux pat.data f.data.length f.data
      = f.data.drop pat.data.length := by
    conv_lhs => rw [hdata]
    exact removeAllAux_append _ _ (data_ne_nil_of_ne_empty hp) hn
  rw [hgoal]

lemma starts_ne_of_starts_false {f k pat : String}
    (hf : strStarts f pat = true) (hk : strStarts k pat = false) : f ≠ k := by
  intro e
  rw [e, hk] at hf
  cases hf

lemma not_starts_of_starts_head {f : String} {a b : Char} {pa qa : List Char}
    (ha : strStarts f ⟨a :: pa⟩ = true) (hne : (b == a) = false) :
    strStarts f ⟨b :: qa⟩ = false := by
  unfold strStarts at *
  have hdata := exists_of_isPrefixOf _ _ ha
  rw [hdata]
  simp only at *
  rw [show (a :: pa) ++ f.data.drop (a :: pa).length
      = a :: (pa ++ f.data.drop (a :: pa).length) from rfl]
  rw [List.isPrefixOf, Bool.and_eq_false_iff]
  exact Or.inl hne

lemma not_starts_leaflet_of_starts_campaign {f : String}
    (h : strStarts f "campaign_" = true) : strStarts f "leaflet_" = false := by
  have h2 : strStarts f ⟨'c' :: "ampaign_".data⟩ = true := h
  exact @not_starts_of_starts_head f 'c' 'l' "ampaign_".data "eaflet_".data h2 (by decide)

lemma not_starts_campaign_of_starts_leaflet {f : String}
    (h : strStarts f "leaflet_" = true) : strStarts f "campaign_" = false := by
  have h2 : strStarts f ⟨'l' :: "eaflet_".data⟩ = true := h
  exact @not_starts_of_starts_head f 'l' 'c' "eaflet_".data "ampaign_".data h2 (by decide)

lemma nonempty_of_starts {f pat : String} (hpat : pat ≠ "")
    (h : strStarts f pat = true) : (f == "") = false := by
  unfold strStarts at h
  have hdata := exists_of_isPrefixOf _ _ h
  rw [beq_eq_false_iff_ne]
  intro e
  apply data_ne_nil_of_ne_empty hpat
  cases hpd : pat.data with
  | nil => rfl
  | cons c cs =>
    rw [e] at hdata
    rw [hpd] at hdata
    simp at hdata

/-! ### Campaign resolution lemmas -/

lemma find?_eq_head?_filter {α : Type} (p : α → Bool) (l : List α) :
    l.find? p = (l.filter p).head? := by
  induction l with
  | nil => simp
  | cons a as ih =>
    by_cases h : p a
    · simp [List.find?_cons, List.filter_cons, h]
    · simp only [List.find?_cons, List.filter_cons, h]
      simpa [h] using ih

lemma filter_and_filter {α : Type} (p q : α → Bool) (l : List α) :
    (l.filter p).filter q = l.filter (fun x => p x && q x) := by
  induction l with
  | nil => simp
  | cons a as ih =>
    by_cases h : p a
    · simp [List.filter_cons, h, ih]
    · simp [List.filter_cons, h, ih]

lemma activeCampaign_of_unique (campaigns : List CampaignRow) (comp : String)
    (date : PDate) (cr : CampaignRow)
    (hu : campaigns.filter (fun c => c.competitor == comp && inRangeb c date) = [cr]) :
    activeCampaign campaigns comp date = cr.chain_campaign := by
  unfold activeCampaign
  rw [find?_eq_head?_filter, filter_and_filter, hu]
  rfl

lemma activeCampaign_of_none (campaigns : List CampaignRow) (comp : String)
    (date : PDate)
    (hu : campaigns.filter (fun c => c.competitor == comp && inRangeb c date) = []) :
    activeCampaign campaigns comp date = "no_campaign" := by
  unfold activeCampaign
  rw [find?_eq_head?_filter, filter_and_filter, hu]
  rfl

/-! ### Layer lemmas for newData -/

lemma getKey_priceStatsData_ne (nd : List (String × FVal)) (l : List Rat) (k : String)
    (h1 : k ≠ "mean_price") (h2 : k ≠ "std_price") (h3 : k ≠ "min_price")
    (h4 : k ≠ "max_price") : getKey (priceStatsData nd l) k = getKey nd k := by
  unfold priceStatsData
  by_cases h : 0 < l.length
  · rw [if_pos h, getKey_setKey_ne _ _ _ _ h4, getKey_setKey_ne _ _ _ _ h3,
      getKey_setKey_ne _ _ _ _ h2, getKey_setKey_ne _ _ _ _ h1]
  · rw [if_neg h]

lemma getKey_priceStatsData_mean (nd : List (String × FVal)) (l : List Rat)
    (h : 0 < l.length) :
    getKey (priceStatsData nd l) "mean_price" = some (FVal.rat (listMean l)) := by
  unfold priceStatsData
  rw [if_pos h, getKey_setKey_ne _ _ _ _ (by decide), getKey_setKey_ne _ _ _ _ (by decide),
    getKey_setKey_ne _ _ _ _ (by decide), getKey_setKey_self]

lemma getKey_priceStatsData_std (nd : List (String × FVal)) (l : List Rat)
    (h : 0 < l.length) :
    getKey (priceStatsData nd l) "std_price" = some (std_price_val l) := by
  unfold priceStatsData
  rw [if_pos h, getKey_setKey_ne _ _ _ _ (by decide), getKey_setKey_ne _ _ _ _ (by decide),
    getKey_setKey_self]

lemma getKey_priceStatsData_min (nd : List (String × FVal)) (l : List Rat)
    (h : 0 < l.length) :
    getKey (priceStatsData nd l) "min_price" = some (FVal.rat (listMin l)) := by
  unfold priceStatsData
  rw [if_pos h, getKey_setKey_ne _ _ _ _ (by decide), getKey_setKey_self]

lemma getKey_priceStatsData_max (nd : List (String × FVal)) (l : List Rat)
    (h : 0 < l.length) :
    getKey (priceStatsData nd l) "max_price" = some (FVal.rat (listMax l)) := by
  unfold priceStatsData
  rw [if_pos h, getKey_setKey_self]

lemma structData_eq (nd : List (String × FVal)) (sku : PVal) (sales : List SalesRow)
    (prices : List PriceRow) :
    structData nd sku sales prices =
      setKey (setKey (setKey (setKey nd
        "structure_level_1_avg_price" (structAvgVal sales prices sku SalesRow.structure_level_1))
        "structure_level_2_avg_price" (structAvgVal sales prices sku SalesRow.structure_level_2))
        "structure_level_3_avg_price" (structAvgVal sales prices sku SalesRow.structure_level_3))
        "structure_level_4_avg_price" (structAvgVal sales prices sku SalesRow.structure_level_4) :=
  rfl

lemma getKey_structData_ne (nd : List (String × FVal)) (sku : PVal)
    (sales : List SalesRow) (prices : List PriceRow) (k : String)
    (h1 : k ≠ "structure_level_1_avg_price") (h2 : k ≠ "structure_level_2_avg_price")
    (h3 : k ≠ "structure_level_3_avg_price") (h4 : k ≠ "structure_level_4_avg_price") :
    getKey (structData nd sku sales prices) k = getKey nd k := by
  rw [structData_eq, getKey_setKey_ne _ _ _ _ h4, getKey_setKey_ne _ _ _ _ h3,
    getKey_setKey_ne _ _ _ _ h2, getKey_setKey_ne _ _ _ _ h1]

lemma getKey_structData_l1 (nd : List (String × FVal)) (sku : PVal)
    (sales : List SalesRow) (prices : List PriceRow) :
    getKey (structData nd sku sales prices) "structure_level_1_avg_price"
      = some (structAvgVal sales prices sku SalesRow.structure_level_1) := by
  rw [structData_eq, getKey_setKey_ne _ _ _ _ (by decide), getKey_setKey_ne _ _ _ _ (by decide),
    getKey_setKey_ne _ _ _ _ (by decide), getKey_setKey_self]

lemma getKey_structData_l2 (nd : List (String × FVal)) (sku : PVal)
    (sales : List SalesRow) (prices : List PriceRow) :
    getKey (structData nd sku sales prices) "structure_level_2_avg_price"
      = some (structAvgVal sales prices sku SalesRow.structure_level_2) := by
  rw [structData_eq, getKey_setKey_ne _ _ _ _ (by decide), getKey_setKey_ne _ _ _ _ (by decide),
    getKey_setKey_self]

lemma getKey_structData_l3 (nd : List (String × FVal)) (sku : PVal)
    (sales : List SalesRow) (prices : List PriceRow) :
    getKey (structData nd sku sales prices) "structure_level_3_avg_price"
      = some (structAvgVal sales prices sku SalesRow.structure_level_3) := by
  rw [structData_eq, getKey_setKey_ne _ _ _ _ (by decide), getKey_setKey_self]

lemma getKey_structData_l4 (nd : List (String × FVal)) (sku : PVal)
    (sales : List SalesRow) (prices : List PriceRow) :
    getKey (structData nd sku sales prices) "structure_level_4_avg_price"
      = some (structAvgVal sales prices sku SalesRow.structure_level_4) := by
  rw [structData_eq, getKey_setKey_self]

lemma getKey_newData_campaign (sku : PVal) (date : PDate) (comp : String)
    (info : SalesRow) (sales : List SalesRow) (prices : List PriceRow)
    (campaigns : List CampaignRow) (features : List String) (f : String)
    (hmem : f ∈ features) (hc : strStarts f "campaign_" = true) :
    getKey (newData sku date comp info sales prices campaigns features) f
      = some (FVal.int (if (activeCampaign campaigns comp date == removeAllStr f "campaign_")
          || (f == "") then 1 else 0)) := by
  have n1 : f ≠ "structure_level_1_avg_price" := starts_ne_of_starts_false hc (by decide)
  have n2 : f ≠ "structure_level_2_avg_price" := starts_ne_of_starts_false hc (by decide)
  have n3 : f ≠ "structure_level_3_avg_price" := starts_ne_of_starts_false hc (by decide)
  have n4 : f ≠ "structure_level_4_avg_price" := starts_ne_of_starts_false hc (by decide)
  have m1 : f ≠ "mean_price" := starts_ne_of_starts_false hc (by decide)
  have m2 : f ≠ "std_price" := starts_ne_of_starts_false hc (by decide)
  have m3 : f ≠ "min_price" := starts_ne_of_starts_false hc (by decide)
  have m4 : f ≠ "max_price" := starts_ne_of_starts_false hc (by decide)
  have hlf : leafletVal f = none := by
    unfold leafletVal
    simp [not_starts_leaflet_of_starts_campaign hc]
  have hcf : campaignVal (activeCampaign campaigns comp date) f
      = some (FVal.int (if (activeCampaign campaigns comp date == removeAllStr f "campaign_")
          || (f == "") then 1 else 0)) := by
    unfold campaignVal
    rw [if_pos hc]
  simp only [newData]
  rw [getKey_structData_ne _ _ _ _ _ n1 n2 n3 n4,
    getKey_priceStatsData_ne _ _ _ m1 m2 m3 m4,
    getKey_applyLoop]
  rw [if_neg (by simp [hlf])]
  rw [getKey_applyLoop]
  rw [if_pos ⟨hmem, by simp [hcf]⟩]
  exact hcf

lemma getKey_newData_leaflet (sku : PVal) (date : PDate) (comp : String)
    (info : SalesRow) (sales : List SalesRow) (prices : List PriceRow)
    (campaigns : List CampaignRow) (features : List String) (f : String)
    (hmem : f ∈ features) (hl : strStarts f "leaflet_" = true) :
    getKey (newData sku date comp info sales prices campaigns features) f
      = some (FVal.int (if removeAllStr f "leaflet_" == "none" then 1 else 0)) := by
  have n1 : f ≠ "structure_level_1_avg_price" := starts_ne_of_starts_false hl (by decide)
  have n2 : f ≠ "structure_level_2_avg_price" := starts_ne_of_starts_false hl (by decide)
  have n3 : f ≠ "structure_level_3_avg_price" := starts_ne_of_starts_false hl (by decide)
  have n4 : f ≠ "structure_level_4_avg_price" := starts_ne_of_starts_false hl (by decide)
  have m1 : f ≠ "mean_price" := starts_ne_of_starts_false hl (by decide)
  have m2 : f ≠ "std_price" := starts_ne_of_starts_false hl (by decide)
  have m3 : f ≠ "min_price" := starts_ne_of_starts_false hl (by decide)
  have m4 : f ≠ "max_price" := starts_ne_of_starts_false hl (by decide)
  have hlf : leafletVal f
      = some (FVal.int (if removeAllStr f "leaflet_" == "none" then 1 else 0)) := by
    unfold leafletVal
    rw [if_pos hl]
  simp only [newData]
  rw [getKey_structData_ne _ _ _ _ _ n1 n2 n3 n4,
    getKey_priceStatsData_ne _ _ _ m1 m2 m3 m4,
    getKey_applyLoop]
  rw [if_pos ⟨hmem, by simp [hlf]⟩]
  exact hlf

lemma getKey_newData_mean (sku : PVal) (date : PDate) (comp : String)
    (info : SalesRow) (sales : List SalesRow) (prices : List PriceRow)
    (campaigns : List CampaignRow) (features : List String)
    (h : 0 < ((prices.filter (fun p => decide (p.sku = sku))).map PriceRow.target_price).length) :
    getKey (newData sku date comp info sales prices campaigns features) "mean_price"
      = some (FVal.rat (listMean
          ((prices.filter (fun p => decide (p.sku = sku))).map PriceRow.target_price))) := by
  simp only [newData]
  rw [getKey_structData_ne _ _ _ _ _ (by decide) (by decide) (by decide) (by decide)]
  exact getKey_priceStatsData_mean _ _ h

lemma getKey_newData_std (sku : PVal) (date : PDate) (comp : String)
    (info : SalesRow) (sales : List SalesRow) (prices : List PriceRow)
    (campaigns : List CampaignRow) (features : List String)
    (h : 0 < ((prices.filter (fun p => decide (p.sku = sku))).map PriceRow.target_price).length) :
    getKey (newData sku date comp info sales prices campaigns features) "std_price"
      = some (std_price_val
          ((prices.filter (fun p => decide (p.sku = sku))).map PriceRow.target_price)) := by
  simp only [newData]
  rw [getKey_structData_ne _ _ _ _ _ (by decide) (by decide) (by decide) (by decide)]
  exact getKey_priceStatsData_std _ _ h

lemma getKey_newData_min (sku : PVal) (date : PDate) (comp : String)
    (info : SalesRow) (sales : List SalesRow) (prices : List PriceRow)
    (campaigns : List CampaignRow) (features : List String)
    (h : 0 < ((prices.filter (fun p => decide (p.sku = sku))).map PriceRow.target_price).length) :
    getKey (newData sku date comp info sales prices campaigns features) "min_price"
      = some (FVal.rat (listMin
          ((prices.filter (fun p => decide (p.sku = sku))).map PriceRow.target_price))) := by
  simp only [newData]
  rw [getKey_structData_ne _ _ _ _ _ (by decide) (by decide) (by decide) (by decide)]
  exact getKey_priceStatsData_min _ _ h

lemma getKey_newData_max (sku : PVal) (date : PDate) (comp : String)
    (info : SalesRow) (sales : List SalesRow) (prices : List PriceRow)
    (campaigns : List CampaignRow) (features : List String)
    (h : 0 < ((prices.filter (fun p => decide (p.sku = sku))).map PriceRow.target_price).length) :
    getKey (newData sku date comp info sales prices campaigns features) "max_price"
      = some (FVal.rat (listMax
          ((prices.filter (fun p => decide (p.sku = sku))).map PriceRow.target_price))) := by
  simp only [newData]
  rw [getKey_structData_ne _ _ _ _ _ (by decide) (by decide) (by decide) (by decide)]
  exact getKey_priceStatsData_max _ _ h

lemma getKey_newData_struct_l1 (sku : PVal) (date : PDate) (comp : String)
    (info : SalesRow) (sales : List SalesRow) (prices : List PriceRow)
    (campaigns : List CampaignRow) (features : List String) :
    getKey (newData sku date comp info sales prices campaigns features)
        "structure_level_1_avg_price"
      = some (structAvgVal sales prices sku SalesRow.structure_level_1) := by
  simp only [newData]
  exact getKey_structData_l1 _ _ _ _

lemma getKey_newData_struct_l2 (sku : PVal) (date : PDate) (comp : String)
    (info : SalesRow) (sales : List SalesRow) (prices : List PriceRow)
    (campaigns : List CampaignRow) (features : List String) :
    getKey (newData sku date comp info sales prices campaigns features)
        "structure_level_2_avg_price"
      = some (structAvgVal sales prices sku SalesRow.structure_level_2) := by
  simp only [newData]
  exact getKey_structData_l2 _ _ _ _

lemma getKey_newData_struct_l3 (sku : PVal) (date : PDate) (comp : String)
    (info : SalesRow) (sales : List SalesRow) (prices : List PriceRow)
    (campaigns : List CampaignRow) (features : List String) :
    getKey (newData sku date comp info sales prices campaigns features)
        "structure_level_3_avg_price"
      = some (structAvgVal sales prices sku SalesRow.structure_level_3) := by
  simp only [newData]
  exact getKey_structData_l3 _ _ _ _

lemma getKey_newData_struct_l4 (sku : PVal) (date : PDate) (comp : String)
    (info : SalesRow) (sales : List SalesRow) (prices : List PriceRow)
    (campaigns : List CampaignRow) (features : List String) :
    getKey (newData sku date comp info sales prices campaigns features)
        "structure_level_4_avg_price"
      = some (structAvgVal sales prices sku SalesRow.structure_level_4) := by
  simp only [newData]
  exact getKey_structData_l4 _ _ _ _

/-! ### Reconciliation key-list lemmas -/

lemma mem_keys_reconcile (nd : List (String × FVal)) (features : List String)
    (f : String) :
    f ∈ (reconcile nd features).map Prod.fst ↔ f ∈ features := by
  unfold reconcile
  rw [List.map_append]
  rw [mapFst_availPairs _ _ (fun x hx => (List.mem_filter.mp hx).2)]
  constructor
  · intro h
    rcases List.mem_append.mp h with h | h
    · exact (List.mem_filter.mp h).1
    · rw [List.map_map] at h
      rcases List.mem_map.mp h with ⟨x, hx, hfx⟩
      have hxf : x = f := hfx
      subst hxf
      exact (List.mem_filter.mp ((mem_dedupFirst x _).mp hx)).1
  · intro h
    cases hs : getKey nd f with
    | some v =>
      exact List.mem_append.mpr (Or.inl (List.mem_filter.mpr ⟨h, by simp [hs]⟩))
    | none =>
      refine List.mem_append.mpr (Or.inr ?_)
      rw [List.map_map]
      refine List.mem_map.mpr ⟨f, ?_, rfl⟩
      exact (mem_dedupFirst f _).mpr (List.mem_filter.mpr ⟨h, by simp [hs]⟩)

lemma keys_reconcile_of_all_present (nd : List (String × FVal))
    (features : List String) (h : ∀ f ∈ features, (getKey nd f).isSome) :
    (reconcile nd features).map Prod.fst = features := by
  unfold reconcile
  have ha : features.filter (fun f => (getKey nd f).isSome) = features := by
    rw [List.filter_eq_self]
    exact h
  have hm : features.filter (fun f => (getKey nd f).isNone) = [] := by
    rw [List.filter_eq_nil_iff]
    intro a ha2
    have := h a ha2
    cases hg : getKey nd a with
    | none => rw [hg] at this; simp at this
    | some v => simp [hg]
  rw [ha, hm]
  rw [show dedupFirst ([] : List String) = [] from rfl]
  simp [mapFst_availPairs _ _ h]

lemma preparar_X_pred_eq (sku : PVal) (date : PDate) (comp : String)
    (sales : List SalesRow) (prices : List PriceRow) (campaigns : List CampaignRow)
    (features : List String) (info : SalesRow) (rest : List SalesRow)
    (hs : sales.filter (fun r => decide (r.sku = sku)) = info :: rest) :
    preparar_X_pred sku date comp sales prices campaigns features
      = Except.ok (reconcile
          (newData sku date comp info sales prices campaigns features) features) := by
  unfold preparar_X_pred
  rw [hs]

/-! ### Numeric lemmas for the price statistics -/

lemma foldl_min_le_init (xs : List Rat) : ∀ v : Rat, xs.foldl min v ≤ v := by
  induction xs with
  | nil => intro v; simp
  | cons w ws ih =>
    intro v
    calc ws.foldl min (min v w) ≤ min v w := ih _
    _ ≤ v := min_le_left _ _

lemma foldl_min_le_mem (xs : List Rat) :
    ∀ (v y : Rat), y ∈ xs → xs.foldl min v ≤ y := by
  induction xs with
  | nil => intro v y h; simp at h
  | cons w ws ih =>
    intro v y h
    rcases List.mem_cons.mp h with rfl | h
    · calc ws.foldl min (min v y) ≤ min v y := foldl_min_le_init _ _
      _ ≤ y := min_le_right _ _
    · exact ih _ y h

lemma listMin_le_mem (l : List Rat) (y : Rat) (h : y ∈ l) : listMin l ≤ y := by
  cases l with
  | nil => simp at h
  | cons x xs =>
    rcases List.mem_cons.mp h with rfl | h
    · exact foldl_min_le_init xs y
    · exact foldl_min_le_mem xs x y h

lemma init_le_foldl_max (xs : List Rat) : ∀ v : Rat, v ≤ xs.foldl max v := by
  induction xs with
  | nil => intro v; simp
  | cons w ws ih =>
    intro v
    calc v ≤ max v w := le_max_left _ _
    _ ≤ ws.foldl max (max v w) := ih _

lemma mem_le_foldl_max (xs : List Rat) :
    ∀ (v y : Rat), y ∈ xs → y ≤ xs.foldl max v := by
  induction xs with
  | nil => intro v y h; simp at h
  | cons w ws ih =>
    intro v y h
    rcases List.mem_cons.mp h with rfl | h
    · calc y ≤ max v y := le_max_right _ _
      _ ≤ ws.foldl max (max v y) := init_le_foldl_max _ _
    · exact ih _ y h

lemma mem_le_listMax (l : List Rat) (y : Rat) (h : y ∈ l) : y ≤ listMax l := by
  cases l with
  | nil => simp at h
  | cons x xs =>
    rcases List.mem_cons.mp h with rfl | h
    · exact init_le_foldl_max xs y
    · exact mem_le_foldl_max xs x y h

lemma listMin_le_listMean (l : List Rat) (h : l ≠ []) : listMin l ≤ listMean l := by
  have hlen : 0 < (l.length : Rat) := by
    exact_mod_cast List.length_pos.mpr h
  unfold listMean
  rw [le_div_iff₀ hlen]
  calc listMin l * (l.length : Rat) = (l.length : Rat) * listMin l := mul_comm _ _
  _ = l.length • listMin l := by rw [nsmul_eq_mul]
  _ ≤ l.sum := List.card_nsmul_le_sum l (listMin l) (fun y hy => listMin_le_mem l y hy)

lemma listMean_le_listMax (l : List Rat) (h : l ≠ []) : listMean l ≤ listMax l := by
  have hlen : 0 < (l.length : Rat) := by
    exact_mod_cast List.length_pos.mpr h
  unfold listMean
  rw [div_le_iff₀ hlen]
  calc l.sum ≤ l.length • listMax l :=
    List.sum_le_card_nsmul l (listMax l) (fun y hy => mem_le_listMax l y hy)
  _ = (l.length : Rat) * listMax l := by rw [nsmul_eq_mul]
  _ = listMax l * (l.length : Rat) := mul_comm _ _

/-- Real denotation of a feature value; `sqval q` denotes the pandas sample
standard deviation, the nonnegative square root of the sample variance `q`.
Non-numeric values denote 0. -/
noncomputable def fvalToReal : FVal → Real
  | FVal.int n => (n : Real)
  | FVal.rat q => (q : Real)
  | FVal.sqval q => Real.sqrt (q : Real)
  | _ => 0

lemma std_price_val_nonneg (l : List Rat) : 0 ≤ fvalToReal (std_price_val l) := by
  unfold std_price_val
  by_cases h : 1 < l.length
  · rw [if_pos h]
    exact Real.sqrt_nonneg _
  · rw [if_neg h]
    norm_num [fvalToReal]

/-! ### Further string helpers for the campaign feature proofs -/

lemma data_append (a b : String) : (a ++ b).data = a.data ++ b.data := by
  cases a
  cases b
  rfl

lemma mk_data_inj {a b : String} (h : a.data = b.data) : a = b := by
  cases a
  cases b
  simp only at h
  rw [h]

lemma strDrop_append (a b : String) : strDrop (a ++ b) a.data.length = b := by
  unfold strDrop
  rw [data_append, List.drop_left]

lemma eq_append_of_starts {f pat : String} (h : strStarts f pat = true) :
    f = pat ++ strDrop f pat.data.length := by
  apply mk_data_inj
  rw [data_append]
  exact exists_of_isPrefixOf _ _ h

lemma starts_append_self (pat t : String) :
    strStarts (pat ++ t) pat = true := by
  unfold strStarts
  rw [data_append]
  exact isPrefixOf_append_self _ _

lemma beq_str_comm (a b : String) : (a == b) = (b == a) := by
  by_cases h : a = b
  · rw [h]
  · rw [beq_eq_false_iff_ne.mpr h, beq_eq_false_iff_ne.mpr (Ne.symm h)]

lemma structAvgVal_nan (sales : List SalesRow) (prices : List PriceRow)
    (sku : PVal) (proj : SalesRow → PVal)
    (h : prices.filter (fun p => decide (p.sku ∈
        dedupFirst ((sales.filter (fun r => decide (r.sku = sku))).map proj))) = []) :
    structAvgVal sales prices sku proj = FVal.nan := by
  simp only [structAvgVal]
  rw [h]
  simp [meanFVal]

/-- The structural-level average price as the specification words it: compute
the level's distinct code values for the product, filter the price reference to
the products whose own code value at that level is one of them, and take the
mean target price. This is the comparison definition for the implemented
`structAvgVal`, whose `isin` filter compares price-table skus with the code
values themselves. -/
def structAvgValSpec (sales : List SalesRow) (prices : List PriceRow) (sku : PVal)
    (proj : SalesRow → PVal) : FVal :=
  let vals := dedupFirst ((sales.filter (fun r => decide (r.sku = sku))).map proj)
  let sharing := (sales.filter (fun r => decide (proj r ∈ vals))).map SalesRow.sku
  meanFVal ((prices.filter (fun p => decide (p.sku ∈ sharing))).map PriceRow.target_price)

/-! ### Fixtures for witnesses and counterexamples -/

def salesRowA : SalesRow := ⟨PVal.i 1, PVal.s "A", PVal.s "B", PVal.s "C", PVal.s "D"⟩

def salesRowB : SalesRow := ⟨PVal.i 2, PVal.s "A", PVal.s "X", PVal.s "Y", PVal.s "Z"⟩

def salesRow4443 : SalesRow := ⟨PVal.i 4443, PVal.s "A", PVal.s "B", PVal.s "C", PVal.s "D"⟩

def dateT : PDate := ⟨2025, 5, 20⟩

/-! ### Claim theorems -/

/-- Claim C1, counterexample: with `feature_names = ["mean_price", "year"]` and
an empty price reference (so `mean_price` is never computed), the row handed to
the model has columns `["year", "mean_price"]` — the missing feature is
appended after the available ones, not placed where `feature_names` puts it. -/
theorem C1_order_counterexample :
    keysOfX (preparar_X_pred (PVal.i 1) ⟨2025, 5, 20⟩ "c" [salesRowA] [] []
      ["mean_price", "year"]) = ["year", "mean_price"]
    ∧ (["year", "mean_price"] : List String) ≠ ["mean_price", "year"] := by
  decide

/-- Claim C1 (amended): for every product id present in the sales reference and
every feature-name list, the feature row handed to the model has key set
exactly equal to `feature_names`; the computed features come first, in
`feature_names` order, and the missing ones are appended with defaults, so the
column order is exactly `feature_names` whenever every requested feature was
computed. -/
theorem C1_row_keys (sku : PVal) (date : PDate) (comp : String)
    (sales : List SalesRow) (prices : List PriceRow) (campaigns : List CampaignRow)
    (features : List String) (info : SalesRow) (rest : List SalesRow)
    (hs : sales.filter (fun r => decide (r.sku = sku)) = info :: rest) :
    preparar_X_pred sku date comp sales prices campaigns features
      = Except.ok (reconcile
          (newData sku date comp info sales prices campaigns features) features)
    ∧ (∀ f, f ∈ (reconcile
          (newData sku date comp info sales prices campaigns features) features).map Prod.fst
        ↔ f ∈ features)
    ∧ ((∀ f ∈ features,
          (getKey (newData sku date comp info sales prices campaigns features) f).isSome) →
        (reconcile
          (newData sku date comp info sales prices campaigns features) features).map Prod.fst
          = features) :=
  ⟨preparar_X_pred_eq _ _ _ _ _ _ _ _ _ hs,
   fun f => mem_keys_reconcile _ _ f,
   fun h => keys_reconcile_of_all_present _ _ h⟩

/-- Witness for C1_row_keys at a concrete input. -/
theorem C1_row_keys_witness :
    ([salesRowA].filter (fun r => decide (r.sku = PVal.i 1)) = salesRowA :: [])
    ∧ (reconcile (newData (PVal.i 1) ⟨2025, 5, 20⟩ "c" salesRowA [salesRowA] [] []
        ["year"]) ["year"]).map Prod.fst = ["year"] :=
  ⟨by decide,
   (C1_row_keys (PVal.i 1) ⟨2025, 5, 20⟩ "c" [salesRowA] [] [] ["year"] salesRowA []
      (by decide)).2.2 (by decide)⟩

/-- Claim C2 (code bug): for product 1 whose level-1 code "A" is shared by
product 2, with price rows (1, 10) and (2, 20), the implementation filters
price rows whose sku *equals a code value* (`sku.isin(list_structure_values)`),
finds none and yields NaN, whereas the documented intent — the mean over the
prices of the products sharing code "A" — is 15. -/
theorem C2_struct_avg_bug :
    valOfX (preparar_X_pred (PVal.i 1) ⟨2025, 5, 20⟩ "c" [salesRowA, salesRowB]
        [⟨PVal.i 1, 10⟩, ⟨PVal.i 2, 20⟩] [] ["structure_level_1_avg_price"])
      "structure_level_1_avg_price" = some FVal.nan
    ∧ structAvgValSpec [salesRowA, salesRowB] [⟨PVal.i 1, 10⟩, ⟨PVal.i 2, 20⟩]
        (PVal.i 1) SalesRow.structure_level_1 = FVal.rat (listMean [10, 20])
    ∧ listMean [10, 20] = 15
    ∧ some FVal.nan ≠ some (FVal.rat (listMean [10, 20])) := by
  refine ⟨by decide, ?_, ?_, by decide⟩
  · have htps : (([⟨PVal.i 1, 10⟩, ⟨PVal.i 2, 20⟩] : List PriceRow).filter
        (fun p => decide (p.sku ∈
          (([salesRowA, salesRowB].filter (fun r => decide
              (SalesRow.structure_level_1 r ∈ dedupFirst (([salesRowA, salesRowB].filter
                (fun r => decide (r.sku = PVal.i 1))).map SalesRow.structure_level_1)))).map
            SalesRow.sku)))).map PriceRow.target_price = [10, 20] := by decide
    show meanFVal _ = FVal.rat (listMean [10, 20])
    rw [htps]
    rw [meanFVal, if_neg (by decide)]
  · unfold listMean
    norm_num

/-- Claim C3: for a product id with no matching row in the sales reference, the
feature builder fails with the ValueError whose message names the offending id,
and it does so for every price reference, campaign reference, feature list and
model alike — the error is produced before any campaign or price logic can
influence the outcome. -/
theorem C3_not_found (sku : PVal) (date : PDate) (comp : String)
    (sales : List SalesRow)
    (hs : sales.filter (fun r => decide (r.sku = sku)) = []) :
    (∀ (prices : List PriceRow) (campaigns : List CampaignRow) (features : List String),
      preparar_X_pred sku date comp sales prices campaigns features
        = Except.error (skuNotFoundMsg sku))
    ∧ (∀ (prices : List PriceRow) (campaigns : List CampaignRow)
        (features : List String) (model : List (String × FVal) → List Rat),
      preparar_features_para_predicao sku date comp sales prices campaigns features model
        = Except.error (skuNotFoundMsg sku))
    ∧ ∃ a b : String, skuNotFoundMsg sku = a ++ pvalStr sku ++ b := by
  have hx : ∀ (prices : List PriceRow) (campaigns : List CampaignRow)
      (features : List String),
      preparar_X_pred sku date comp sales prices campaigns features
        = Except.error (skuNotFoundMsg sku) := by
    intro prices campaigns features
    unfold preparar_X_pred
    rw [hs]
  refine ⟨hx, ?_, "SKU '", "' não encontrado nos dados de vendas.", ?_⟩
  · intro prices campaigns features model
    unfold preparar_features_para_predicao
    rw [hx prices campaigns features]
  · unfold skuNotFoundMsg
    rw [String.append_assoc]

/-- Witness for C3_not_found at a concrete input. -/
theorem C3_not_found_witness :
    (([] : List SalesRow).filter (fun r => decide (r.sku = PVal.i 5)) = [])
    ∧ preparar_X_pred (PVal.i 5) ⟨2025, 5, 20⟩ "c" [] [⟨PVal.i 5, 10⟩]
        [⟨"c", ⟨2025, 5, 1⟩, ⟨2025, 5, 30⟩, "x"⟩] ["campaign_x"]
        = Except.error (skuNotFoundMsg (PVal.i 5)) :=
  ⟨rfl, (C3_not_found (PVal.i 5) ⟨2025, 5, 20⟩ "c" [] rfl).1 [⟨PVal.i 5, 10⟩]
    [⟨"c", ⟨2025, 5, 1⟩, ⟨2025, 5, 30⟩, "x"⟩] ["campaign_x"]⟩

/-- Claim C9: the end-to-end fixture — product 4443 with structural codes
("A","B","C","D"), date 2025-05-20, competitor "competitorA", empty price and
campaign references, the five requested features — produces exactly the row
{year: 2025, month: 5, day_of_week: 1, is_weekend: 0, leaflet_none: 1}, and a
stub model returning the constant `c` makes the orchestration return `c`
unchanged. -/
theorem C9_end_to_end (c : Rat) :
    preparar_X_pred (PVal.i 4443) ⟨2025, 5, 20⟩ "competitorA" [salesRow4443] [] []
      ["year", "month", "day_of_week", "is_weekend", "leaflet_none"]
      = Except.ok [("year", FVal.int 2025), ("month", FVal.int 5),
          ("day_of_week", FVal.int 1), ("is_weekend", FVal.int 0),
          ("leaflet_none", FVal.int 1)]
    ∧ preparar_features_para_predicao (PVal.i 4443) ⟨2025, 5, 20⟩ "competitorA"
        [salesRow4443] [] [] ["year", "month", "day_of_week", "is_weekend", "leaflet_none"]
        (fun _ => [c])
      = Except.ok c := by
  have hrow : preparar_X_pred (PVal.i 4443) ⟨2025, 5, 20⟩ "competitorA" [salesRow4443] [] []
      ["year", "month", "day_of_week", "is_weekend", "leaflet_none"]
      = Except.ok [("year", FVal.int 2025), ("month", FVal.int 5),
          ("day_of_week", FVal.int 1), ("is_weekend", FVal.int 0),
          ("leaflet_none", FVal.int 1)] := by decide
  refine ⟨hrow, ?_⟩
  unfold preparar_features_para_predicao
  rw [hrow]

/-- Claim C4, counterexample: the campaign label "campaign_x" contains the
prefix text itself; for a date inside that unique campaign, the feature named
campaign_ + label ("campaign_campaign_x") is set to 0, not 1, because the code
removes every occurrence of "campaign_" from the feature name (yielding "x")
instead of only stripping the leading prefix. -/
theorem C4_campaign_counterexample :
    valOfX (preparar_X_pred (PVal.i 1) ⟨2025, 5, 20⟩ "a" [salesRowA] []
      [⟨"a", ⟨2025, 5, 20⟩, ⟨2025, 5, 20⟩, "campaign_x"⟩]
      ["campaign_campaign_x"]) "campaign_campaign_x" = some (FVal.int 0)
    ∧ some (FVal.int 0) ≠ some (FVal.int 1) := by
  decide

/-- Claim C4 (amended): campaign resolution keeps only the rows of the given
competitor and takes the first row in table order containing the date
inclusively, else the sentinel "no_campaign"; consequently, when exactly one
campaign row of that competitor contains the date, the feature campaign_+label
is 1 and every other campaign_-prefixed feature is 0 — provided "campaign_"
does not occur inside the label or inside the tail of any campaign feature
name, since the code removes every occurrence of "campaign_" rather than only
the leading prefix. -/
theorem C4_campaign_match (sku : PVal) (date : PDate) (comp : String)
    (sales : List SalesRow) (prices : List PriceRow) (campaigns : List CampaignRow)
    (features : List String) (info : SalesRow) (rest : List SalesRow) (cr : CampaignRow)
    (hs : sales.filter (fun r => decide (r.sku = sku)) = info :: rest)
    (hu : campaigns.filter (fun c => c.competitor == comp && inRangeb c date) = [cr])
    (hlbl : strNoOccur cr.chain_campaign "campaign_" = true) :
    preparar_X_pred sku date comp sales prices campaigns features
      = Except.ok (reconcile
          (newData sku date comp info sales prices campaigns features) features)
    ∧ (("campaign_" ++ cr.chain_campaign) ∈ features →
        getKey (reconcile (newData sku date comp info sales prices campaigns features)
          features) ("campaign_" ++ cr.chain_campaign) = some (FVal.int 1))
    ∧ (∀ f ∈ features, strStarts f "campaign_" = true →
        strNoOccur (strDrop f 9) "campaign_" = true →
        f ≠ "campaign_" ++ cr.chain_campaign →
        getKey (reconcile (newData sku date comp info sales prices campaigns features)
          features) f = some (FVal.int 0)) := by
  have hact := activeCampaign_of_unique campaigns comp date cr hu
  refine ⟨preparar_X_pred_eq _ _ _ _ _ _ _ _ _ hs, ?_, ?_⟩
  · intro hmem
    have hstart : strStarts ("campaign_" ++ cr.chain_campaign) "campaign_" = true :=
      starts_append_self _ _
    have hval := getKey_newData_campaign sku date comp info sales prices campaigns
      features _ hmem hstart
    have hsd : strDrop ("campaign_" ++ cr.chain_campaign) ("campaign_" : String).data.length
        = cr.chain_campaign := strDrop_append _ _
    have hcand : removeAllStr ("campaign_" ++ cr.chain_campaign) "campaign_"
        = cr.chain_campaign := by
      have h1 := removeAllStr_eq_of_starts ("campaign_" ++ cr.chain_campaign) "campaign_"
        (by decide) hstart (by rw [hsd]; exact hlbl)
      rw [hsd] at h1
      exact h1
    rw [hact, hcand] at hval
    simp only [beq_self_eq_true, Bool.true_or, if_true] at hval
    exact getKey_reconcile_of_mem _ _ _ _ hmem hval
  · intro f hmem hstart hocc hne
    have hval := getKey_newData_campaign sku date comp info sales prices campaigns
      features f hmem hstart
    have h9 : ("campaign_" : String).data.length = 9 := rfl
    have hcand := removeAllStr_eq_of_starts f "campaign_" (by decide) hstart
      (by rw [h9]; exact hocc)
    rw [h9] at hcand
    have hner : cr.chain_campaign ≠ strDrop f 9 := by
      intro e
      apply hne
      have hf := eq_append_of_starts hstart
      rw [h9] at hf
      rw [hf, ← e]
    have hbeq : (activeCampaign campaigns comp date == removeAllStr f "campaign_")
        = false := by
      rw [hact, hcand]
      exact beq_eq_false_iff_ne.mpr hner
    have hfe : (f == "") = false := nonempty_of_starts (by decide) hstart
    rw [hbeq, hfe] at hval
    simp only [Bool.or_self, Bool.false_eq_true, if_false] at hval
    exact getKey_reconcile_of_mem _ _ _ _ hmem hval

/-- Witness for C4_campaign_match at a concrete input: one campaign ("x") of
competitor "a" covering the date; campaign_x gets 1, campaign_y gets 0. -/
theorem C4_campaign_match_witness :
    ([salesRowA].filter (fun r => decide (r.sku = PVal.i 1)) = salesRowA :: [])
    ∧ (([⟨"a", ⟨2025, 5, 1⟩, ⟨2025, 5, 30⟩, "x"⟩] : List CampaignRow).filter
        (fun c => c.competitor == "a" && inRangeb c ⟨2025, 5, 20⟩)
        = [⟨"a", ⟨2025, 5, 1⟩, ⟨2025, 5, 30⟩, "x"⟩])
    ∧ getKey (reconcile (newData (PVal.i 1) ⟨2025, 5, 20⟩ "a" salesRowA [salesRowA] []
        [⟨"a", ⟨2025, 5, 1⟩, ⟨2025, 5, 30⟩, "x"⟩] ["campaign_x", "campaign_y"])
        ["campaign_x", "campaign_y"]) "campaign_x" = some (FVal.int 1)
    ∧ getKey (reconcile (newData (PVal.i 1) ⟨2025, 5, 20⟩ "a" salesRowA [salesRowA] []
        [⟨"a", ⟨2025, 5, 1⟩, ⟨2025, 5, 30⟩, "x"⟩] ["campaign_x", "campaign_y"])
        ["campaign_x", "campaign_y"]) "campaign_y" = some (FVal.int 0) :=
  ⟨by decide, by decide,
   (C4_campaign_match (PVal.i 1) ⟨2025, 5, 20⟩ "a" [salesRowA] []
      [⟨"a", ⟨2025, 5, 1⟩, ⟨2025, 5, 30⟩, "x"⟩] ["campaign_x", "campaign_y"] salesRowA []
      ⟨"a", ⟨2025, 5, 1⟩, ⟨2025, 5, 30⟩, "x"⟩ (by decide) (by decide) (by decide)).2.1
      (by decide),
   (C4_campaign_match (PVal.i 1) ⟨2025, 5, 20⟩ "a" [salesRowA] []
      [⟨"a", ⟨2025, 5, 1⟩, ⟨2025, 5, 30⟩, "x"⟩] ["campaign_x", "campaign_y"] salesRowA []
      ⟨"a", ⟨2025, 5, 1⟩, ⟨2025, 5, 30⟩, "x"⟩ (by decide) (by decide) (by decide)).2.2
      "campaign_y" (by decide) (by decide) (by decide) (by decide)⟩

/-- Claim C5, counterexample: with no campaign rows at all, the feature
literally named campaign_ is set to 0, not 1 — the `or feature == ''` guard in
line 51 tests the whole feature name, which is never empty for a
campaign_-prefixed name, so the claimed always-1 quirk does not exist. -/
theorem C5_campaign_empty_counterexample :
    valOfX (preparar_X_pred (PVal.i 1) ⟨2025, 5, 20⟩ "c" [salesRowA] [] [] ["campaign_"])
      "campaign_" = some (FVal.int 0)
    ∧ some (FVal.int 0) ≠ some (FVal.int 1) := by
  decide

/-- Claim C5 (amended): for a date outside every campaign of the competitor,
the resolved label is "no_campaign" and each campaign_-prefixed feature is 1
exactly when its candidate label (the name with every "campaign_" occurrence
removed) equals "no_campaign"; in particular the feature literally named
campaign_ is 0, not 1 — the `feature == ''` disjunct is dead code. -/
theorem C5_no_campaign (sku : PVal) (date : PDate) (comp : String)
    (sales : List SalesRow) (prices : List PriceRow) (campaigns : List CampaignRow)
    (features : List String) (info : SalesRow) (rest : List SalesRow)
    (hs : sales.filter (fun r => decide (r.sku = sku)) = info :: rest)
    (hnone : campaigns.filter (fun c => c.competitor == comp && inRangeb c date) = []) :
    preparar_X_pred sku date comp sales prices campaigns features
      = Except.ok (reconcile
          (newData sku date comp info sales prices campaigns features) features)
    ∧ ("campaign_" ∈ features →
        getKey (reconcile (newData sku date comp info sales prices campaigns features)
          features) "campaign_" = some (FVal.int 0))
    ∧ (∀ f ∈ features, strStarts f "campaign_" = true →
        getKey (reconcile (newData sku date comp info sales prices campaigns features)
          features) f
          = some (FVal.int (if removeAllStr f "campaign_" == "no_campaign" then 1 else 0))) := by
  have hact := activeCampaign_of_none campaigns comp date hnone
  have hall : ∀ f ∈ features, strStarts f "campaign_" = true →
      getKey (reconcile (newData sku date comp info sales prices campaigns features)
        features) f
        = some (FVal.int (if removeAllStr f "campaign_" == "no_campaign" then 1 else 0)) := by
    intro f hmem hstart
    have hval := getKey_newData_campaign sku date comp info sales prices campaigns
      features f hmem hstart
    rw [hact] at hval
    have hfe : (f == "") = false := nonempty_of_starts (by decide) hstart
    rw [hfe, Bool.or_false] at hval
    rw [beq_str_comm "no_campaign" (removeAllStr f "campaign_")] at hval
    exact getKey_reconcile_of_mem _ _ _ _ hmem hval
  refine ⟨preparar_X_pred_eq _ _ _ _ _ _ _ _ _ hs, ?_, hall⟩
  intro hmem
  have h0 := hall "campaign_" hmem (by decide)
  rw [show removeAllStr "campaign_" "campaign_" = "" from by decide] at h0
  rw [show (("" : String) == "no_campaign") = false from by decide] at h0
  simpa using h0

/-- Witness for C5_no_campaign at a concrete input: a campaign exists only for
another competitor, so campaign_ is 0 and campaign_x is 0. -/
theorem C5_no_campaign_witness :
    ([salesRowA].filter (fun r => decide (r.sku = PVal.i 1)) = salesRowA :: [])
    ∧ (([⟨"other", ⟨2025, 5, 1⟩, ⟨2025, 5, 30⟩, "x"⟩] : List CampaignRow).filter
        (fun c => c.competitor == "c" && inRangeb c ⟨2025, 5, 20⟩) = [])
    ∧ getKey (reconcile (newData (PVal.i 1) ⟨2025, 5, 20⟩ "c" salesRowA [salesRowA] []
        [⟨"other", ⟨2025, 5, 1⟩, ⟨2025, 5, 30⟩, "x"⟩] ["campaign_", "campaign_x"])
        ["campaign_", "campaign_x"]) "campaign_" = some (FVal.int 0) :=
  ⟨by decide, by decide,
   (C5_no_campaign (PVal.i 1) ⟨2025, 5, 20⟩ "c" [salesRowA] []
      [⟨"other", ⟨2025, 5, 1⟩, ⟨2025, 5, 30⟩, "x"⟩] ["campaign_", "campaign_x"]
      salesRowA [] (by decide) (by decide)).2.1 (by decide)⟩

/-- Claim C6, counterexample: the feature "leaflet_leaflet_none" starts with
leaflet_ and is not leaflet_none, yet it is set to 1, because the code removes
every occurrence of "leaflet_" (yielding "none") instead of stripping only the
leading prefix. -/
theorem C6_leaflet_counterexample :
    valOfX (preparar_X_pred (PVal.i 1) ⟨2025, 5, 20⟩ "c" [salesRowA] [] []
      ["leaflet_leaflet_none"]) "leaflet_leaflet_none" = some (FVal.int 1)
    ∧ some (FVal.int 1) ≠ some (FVal.int 0) := by
  decide

/-- Claim C6 (amended): for every input, leaflet_none is set to 1, and every
other leaflet_-prefixed feature is set to 1 exactly when removing every
occurrence of "leaflet_" from its name yields "none" (e.g.
leaflet_leaflet_none), and to 0 otherwise. -/
theorem C6_leaflet_features (sku : PVal) (date : PDate) (comp : String)
    (sales : List SalesRow) (prices : List PriceRow) (campaigns : List CampaignRow)
    (features : List String) (info : SalesRow) (rest : List SalesRow)
    (hs : sales.filter (fun r => decide (r.sku = sku)) = info :: rest) :
    preparar_X_pred sku date comp sales prices campaigns features
      = Except.ok (reconcile
          (newData sku date comp info sales prices campaigns features) features)
    ∧ ("leaflet_none" ∈ features →
        getKey (reconcile (newData sku date comp info sales prices campaigns features)
          features) "leaflet_none" = some (FVal.int 1))
    ∧ (∀ f ∈ features, strStarts f "leaflet_" = true →
        getKey (reconcile (newData sku date comp info sales prices campaigns features)
          features) f
          = some (FVal.int (if removeAllStr f "leaflet_" == "none" then 1 else 0))) := by
  have hall : ∀ f ∈ features, strStarts f "leaflet_" = true →
      getKey (reconcile (newData sku date comp info sales prices campaigns features)
        features) f
        = some (FVal.int (if removeAllStr f "leaflet_" == "none" then 1 else 0)) := by
    intro f hmem hstart
    exact getKey_reconcile_of_mem _ _ _ _ hmem
      (getKey_newData_leaflet sku date comp info sales prices campaigns features f
        hmem hstart)
  refine ⟨preparar_X_pred_eq _ _ _ _ _ _ _ _ _ hs, ?_, hall⟩
  intro hmem
  have h1 := hall "leaflet_none" hmem (by decide)
  rw [show removeAllStr "leaflet_none" "leaflet_" = "none" from by decide] at h1
  simpa using h1

/-- Witness for C6_leaflet_features at a concrete input. -/
theorem C6_leaflet_features_witness :
    ([salesRowA].filter (fun r => decide (r.sku = PVal.i 1)) = salesRowA :: [])
    ∧ getKey (reconcile (newData (PVal.i 1) ⟨2025, 5, 20⟩ "c" salesRowA [salesRowA] [] []
        ["leaflet_none", "leaflet_a"]) ["leaflet_none", "leaflet_a"]) "leaflet_none"
      = some (FVal.int 1) :=
  ⟨by decide,
   (C6_leaflet_features (PVal.i 1) ⟨2025, 5, 20⟩ "c" [salesRowA] [] []
      ["leaflet_none", "leaflet_a"] salesRowA [] (by decide)).2.1 (by decide)⟩

/-- Claim C7: when a structural level's filtered price set is empty, the
corresponding {level}_avg_price value is NaN — the builder still succeeds (no
exception, no 0) — and the NaN flows unmodified into the row handed to the
model whenever the feature is requested. Stated for each of the four levels. -/
theorem C7_struct_nan (sku : PVal) (date : PDate) (comp : String)
    (sales : List SalesRow) (prices : List PriceRow) (campaigns : List CampaignRow)
    (features : List String) (info : SalesRow) (rest : List SalesRow)
    (hs : sales.filter (fun r => decide (r.sku = sku)) = info :: rest) :
    preparar_X_pred sku date comp sales prices campaigns features
      = Except.ok (reconcile
          (newData sku date comp info sales prices campaigns features) features)
    ∧ (prices.filter (fun p => decide (p.sku ∈ dedupFirst
          ((sales.filter (fun r => decide (r.sku = sku))).map SalesRow.structure_level_1)))
          = [] →
        "structure_level_1_avg_price" ∈ features →
        getKey (reconcile (newData sku date comp info sales prices campaigns features)
          features) "structure_level_1_avg_price" = some FVal.nan)
    ∧ (prices.filter (fun p => decide (p.sku ∈ dedupFirst
          ((sales.filter (fun r => decide (r.sku = sku))).map SalesRow.structure_level_2)))
          = [] →
        "structure_level_2_avg_price" ∈ features →
        getKey (reconcile (newData sku date comp info sales prices campaigns features)
          features) "structure_level_2_avg_price" = some FVal.nan)
    ∧ (prices.filter (fun p => decide (p.sku ∈ dedupFirst
          ((sales.filter (fun r => decide (r.sku = sku))).map SalesRow.structure_level_3)))
          = [] →
        "structure_level_3_avg_price" ∈ features →
        getKey (reconcile (newData sku date comp info sales prices campaigns features)
          features) "structure_level_3_avg_price" = some FVal.nan)
    ∧ (prices.filter (fun p => decide (p.sku ∈ dedupFirst
          ((sales.filter (fun r => decide (r.sku = sku))).map SalesRow.structure_level_4)))
          = [] →
        "structure_level_4_avg_price" ∈ features →
        getKey (reconcile (newData sku date comp info sales prices campaigns features)
          features) "structure_level_4_avg_price" = some FVal.nan) := by
  refine ⟨preparar_X_pred_eq _ _ _ _ _ _ _ _ _ hs, ?_, ?_, ?_, ?_⟩
  · intro hempty hmem
    have hv := getKey_newData_struct_l1 sku date comp info sales prices campaigns features
    rw [structAvgVal_nan _ _ _ _ hempty] at hv
    exact getKey_reconcile_of_mem _ _ _ _ hmem hv
  · intro hempty hmem
    have hv := getKey_newData_struct_l2 sku date comp info sales prices campaigns features
    rw [structAvgVal_nan _ _ _ _ hempty] at hv
    exact getKey_reconcile_of_mem _ _ _ _ hmem hv
  · intro hempty hmem
    have hv := getKey_newData_struct_l3 sku date comp info sales prices campaigns features
    rw [structAvgVal_nan _ _ _ _ hempty] at hv
    exact getKey_reconcile_of_mem _ _ _ _ hmem hv
  · intro hempty hmem
    have hv := getKey_newData_struct_l4 sku date comp info sales prices campaigns features
    rw [structAvgVal_nan _ _ _ _ hempty] at hv
    exact getKey_reconcile_of_mem _ _ _ _ hmem hv

/-- Witness for C7_struct_nan: a nonempty price reference whose only sku does
not coincide with the level-1 code value, so the filtered set is empty and
structure_level_1_avg_price is NaN in the delivered row. -/
theorem C7_struct_nan_witness :
    ([salesRowA].filter (fun r => decide (r.sku = PVal.i 1)) = salesRowA :: [])
    ∧ (([⟨PVal.i 9, 7⟩] : List PriceRow).filter (fun p => decide (p.sku ∈ dedupFirst
        (([salesRowA].filter (fun r => decide (r.sku = PVal.i 1))).map
          SalesRow.structure_level_1))) = [])
    ∧ getKey (reconcile (newData (PVal.i 1) ⟨2025, 5, 20⟩ "c" salesRowA [salesRowA]
        [⟨PVal.i 9, 7⟩] [] ["structure_level_1_avg_price"]) ["structure_level_1_avg_price"])
        "structure_level_1_avg_price" = some FVal.nan :=
  ⟨by decide, by decide,
   (C7_struct_nan (PVal.i 1) ⟨2025, 5, 20⟩ "c" [salesRowA] [⟨PVal.i 9, 7⟩] []
      ["structure_level_1_avg_price"] salesRowA [] (by decide)).2.1 (by decide) (by decide)⟩

/-- Claim C8: when the price reference holds exactly one row for the product,
the computed statistics are std_price = 0 and
mean_price = min_price = max_price = that row's target price. -/
theorem C8_single_price_stats (sku : PVal) (date : PDate) (comp : String)
    (sales : List SalesRow) (prices : List PriceRow) (campaigns : List CampaignRow)
    (features : List String) (info : SalesRow) (rest : List SalesRow) (pr : PriceRow)
    (hs : sales.filter (fun r => decide (r.sku = sku)) = info :: rest)
    (hp : prices.filter (fun p => decide (p.sku = sku)) = [pr]) :
    preparar_X_pred sku date comp sales prices campaigns features
      = Except.ok (reconcile
          (newData sku date comp info sales prices campaigns features) features)
    ∧ getKey (newData sku date comp info sales prices campaigns features) "mean_price"
      = some (FVal.rat pr.target_price)
    ∧ getKey (newData sku date comp info sales prices campaigns features) "std_price"
      = some (FVal.int 0)
    ∧ getKey (newData sku date comp info sales prices campaigns features) "min_price"
      = some (FVal.rat pr.target_price)
    ∧ getKey (newData sku date comp info sales prices campaigns features) "max_price"
      = some (FVal.rat pr.target_price) := by
  have hl : (prices.filter (fun p => decide (p.sku = sku))).map PriceRow.target_price
      = [pr.target_price] := by
    rw [hp]
    rfl
  have hlen : 0 < ((prices.filter (fun p => decide (p.sku = sku))).map
      PriceRow.target_price).length := by
    rw [hl]
    simp
  refine ⟨preparar_X_pred_eq _ _ _ _ _ _ _ _ _ hs, ?_, ?_, ?_, ?_⟩
  · have h := getKey_newData_mean sku date comp info sales prices campaigns features hlen
    rw [hl] at h
    rw [show listMean [pr.target_price] = pr.target_price from by
      unfold listMean; simp] at h
    exact h
  · have h := getKey_newData_std sku date comp info sales prices campaigns features hlen
    rw [hl] at h
    rw [show std_price_val [pr.target_price] = FVal.int 0 from rfl] at h
    exact h
  · have h := getKey_newData_min sku date comp info sales prices campaigns features hlen
    rw [hl] at h
    rw [show listMin [pr.target_price] = pr.target_price from rfl] at h
    exact h
  · have h := getKey_newData_max sku date comp info sales prices campaigns features hlen
    rw [hl] at h
    rw [show listMax [pr.target_price] = pr.target_price from rfl] at h
    exact h

/-- Witness for C8_single_price_stats at a concrete input. -/
theorem C8_single_price_stats_witness :
    ([salesRowA].filter (fun r => decide (r.sku = PVal.i 1)) = salesRowA :: [])
    ∧ (([⟨PVal.i 1, 10⟩] : List PriceRow).filter (fun p => decide (p.sku = PVal.i 1))
        = [⟨PVal.i 1, 10⟩])
    ∧ getKey (newData (PVal.i 1) ⟨2025, 5, 20⟩ "c" salesRowA [salesRowA] [⟨PVal.i 1, 10⟩]
        [] []) "std_price" = some (FVal.int 0)
    ∧ getKey (newData (PVal.i 1) ⟨2025, 5, 20⟩ "c" salesRowA [salesRowA] [⟨PVal.i 1, 10⟩]
        [] []) "mean_price" = some (FVal.rat 10) :=
  ⟨by decide, by decide,
   (C8_single_price_stats (PVal.i 1) ⟨2025, 5, 20⟩ "c" [salesRowA] [⟨PVal.i 1, 10⟩] [] []
      salesRowA [] ⟨PVal.i 1, 10⟩ (by decide) (by decide)).2.2.1,
   (C8_single_price_stats (PVal.i 1) ⟨2025, 5, 20⟩ "c" [salesRowA] [⟨PVal.i 1, 10⟩] [] []
      salesRowA [] ⟨PVal.i 1, 10⟩ (by decide) (by decide)).2.1⟩

/-- Claim C10: whenever at least one price row matches the product, the stored
statistics satisfy min_price ≤ mean_price ≤ max_price, and the stored standard
deviation (as a real number) is nonnegative. -/
theorem C10_price_stats_bounds (sku : PVal) (date : PDate) (comp : String)
    (sales : List SalesRow) (prices : List PriceRow) (campaigns : List CampaignRow)
    (features : List String) (info : SalesRow) (x : Rat) (xs : List Rat)
    (hl : (prices.filter (fun p => decide (p.sku = sku))).map PriceRow.target_price
      = x :: xs) :
    getKey (newData sku date comp info sales prices campaigns features) "mean_price"
      = some (FVal.rat (listMean (x :: xs)))
    ∧ getKey (newData sku date comp info sales prices campaigns features) "min_price"
      = some (FVal.rat (listMin (x :: xs)))
    ∧ getKey (newData sku date comp info sales prices campaigns features) "max_price"
      = some (FVal.rat (listMax (x :: xs)))
    ∧ getKey (newData sku date comp info sales prices campaigns features) "std_price"
      = some (std_price_val (x :: xs))
    ∧ listMin (x :: xs) ≤ listMean (x :: xs)
    ∧ listMean (x :: xs) ≤ listMax (x :: xs)
    ∧ (0 : Real) ≤ fvalToReal (std_price_val (x :: xs)) := by
  have hlen : 0 < ((prices.filter (fun p => decide (p.sku = sku))).map
      PriceRow.target_price).length := by
    rw [hl]
    simp
  refine ⟨?_, ?_, ?_, ?_, listMin_le_listMean _ (by simp), listMean_le_listMax _ (by simp),
    std_price_val_nonneg _⟩
  · have h := getKey_newData_mean sku date comp info sales prices campaigns features hlen
    rw [hl] at h
    exact h
  · have h := getKey_newData_min sku date comp info sales prices campaigns features hlen
    rw [hl] at h
    exact h
  · have h := getKey_newData_max sku date comp info sales prices campaigns features hlen
    rw [hl] at h
    exact h
  · have h := getKey_newData_std sku date comp info sales prices campaigns features hlen
    rw [hl] at h
    exact h

/-- Witness for C10_price_stats_bounds at a concrete input with two matching
price rows. -/
theorem C10_price_stats_bounds_witness :
    (([⟨PVal.i 1, 10⟩, ⟨PVal.i 1, 20⟩] : List PriceRow).filter
        (fun p => decide (p.sku = PVal.i 1))).map PriceRow.target_price = 10 :: [20]
    ∧ (getKey (newData (PVal.i 1) ⟨2025, 5, 20⟩ "c" salesRowA [salesRowA]
          [⟨PVal.i 1, 10⟩, ⟨PVal.i 1, 20⟩] [] []) "mean_price"
        = some (FVal.rat (listMean (10 :: [20])))
      ∧ getKey (newData (PVal.i 1) ⟨2025, 5, 20⟩ "c" salesRowA [salesRowA]
          [⟨PVal.i 1, 10⟩, ⟨PVal.i 1, 20⟩] [] []) "min_price"
        = some (FVal.rat (listMin (10 :: [20])))
      ∧ getKey (newData (PVal.i 1) ⟨2025, 5, 20⟩ "c" salesRowA [salesRowA]
          [⟨PVal.i 1, 10⟩, ⟨PVal.i 1, 20⟩] [] []) "max_price"
        = some (FVal.rat (listMax (10 :: [20])))
      ∧ getKey (newData (PVal.i 1) ⟨2025, 5, 20⟩ "c" salesRowA [salesRowA]
          [⟨PVal.i 1, 10⟩, ⟨PVal.i 1, 20⟩] [] []) "std_price"
        = some (std_price_val (10 :: [20]))
      ∧ listMin (10 :: [20]) ≤ listMean (10 :: [20])
      ∧ listMean (10 :: [20]) ≤ listMax (10 :: [20])
      ∧ (0 : Real) ≤ fvalToReal (std_price_val (10 :: [20]))) :=
  ⟨by decide,
   C10_price_stats_bounds (PVal.i 1) ⟨2025, 5, 20⟩ "c" [salesRowA]
     [⟨PVal.i 1, 10⟩, ⟨PVal.i 1, 20⟩] [] [] salesRowA 10 [20] (by decide)⟩
